import Mathlib

/-!
Shallow embedding of the conversation store of the chatgpt-clone repository
(`src/contexts/ChatContext.tsx`, `src/components/ChatInterface.tsx`,
`src/types/chat.ts`) and proofs about its specified behaviour.

JavaScript `Date.now()` is modelled by an explicit `now : Nat` parameter and
the fresh ids produced by the id-generation expressions are modelled by
explicit `String` parameters.  `null` becomes `Option`, the optional
`isStreaming?: boolean` and `images?: string[]` fields become `Option` fields.
-/

namespace ChatApp

/-- The `role` field of a message: `'user' | 'assistant'` (src/types/chat.ts). -/
inductive Role where
  | user
  | assistant
deriving DecidableEq, Repr

/-- `interface Message` from src/types/chat.ts (with the optional `images`
field of the extended variant of that file).  The optional fields
`isStreaming?` and `images?` are `Option`s; an absent field is `none`. -/
structure Message where
  id : String
  content : String
  role : Role
  timestamp : Nat
  isStreaming : Option Bool
  images : Option (List String)
deriving DecidableEq, Repr

/-- `interface Chat` from src/types/chat.ts. -/
structure Chat where
  id : String
  title : String
  messages : List Message
  createdAt : Nat
  updatedAt : Nat
deriving DecidableEq, Repr

/-- `interface ChatState` from src/types/chat.ts. -/
structure ChatState where
  chats : List Chat
  currentChatId : Option String
  isLoading : Bool
  isStreaming : Bool
deriving DecidableEq, Repr

/-- `type ChatAction` from src/contexts/ChatContext.tsx lines 16-23. -/
inductive ChatAction where
  | CREATE_CHAT (payload : Chat)
  | SELECT_CHAT (payload : String)
  | ADD_MESSAGE (payload : Message)
  | UPDATE_MESSAGE (messageId : String) (content : String)
  | DELETE_CHAT (payload : String)
  | SET_STREAMING (payload : Bool)
  | LOAD_CHATS (payload : List Chat)
deriving DecidableEq, Repr

/-- `chatReducer` from src/contexts/ChatContext.tsx lines 25-99.  The JS
`===` comparisons of a `string` against a nullable `string` become equality
of `Option String` (comparing `null` against a string is `false`, matching
`some _ = none` being false).  `Date.now()` in the `ADD_MESSAGE` and
`UPDATE_MESSAGE` branches is the `now` parameter. -/
def chatReducer (now : Nat) (state : ChatState) (action : ChatAction) : ChatState :=
  match action with
  | .CREATE_CHAT payload =>
      { state with
        chats := payload :: state.chats,
        currentChatId := some payload.id }
  | .SELECT_CHAT payload =>
      { state with currentChatId := some payload }
  | .ADD_MESSAGE payload =>
      { state with
        chats := state.chats.map fun chat =>
          if some chat.id = state.currentChatId then
            { chat with messages := chat.messages ++ [payload], updatedAt := now }
          else chat }
  | .UPDATE_MESSAGE messageId content =>
      { state with
        chats := state.chats.map fun chat =>
          if some chat.id = state.currentChatId then
            { chat with
              messages := chat.messages.map fun msg =>
                if msg.id = messageId then
                  { msg with content := content, isStreaming := some false }
                else msg,
              updatedAt := now }
          else chat }
  | .DELETE_CHAT payload =>
      let remainingChats := state.chats.filter fun chat => chat.id ≠ payload
      { state with
        chats := remainingChats,
        currentChatId :=
          if state.currentChatId = some payload then
            remainingChats.head?.map Chat.id
          else state.currentChatId }
  | .SET_STREAMING payload =>
      { state with isStreaming := payload }
  | .LOAD_CHATS payload =>
      { state with chats := payload, isLoading := false }

/-- The initial reducer state from `useReducer(chatReducer, {...})`
(src/contexts/ChatContext.tsx lines 107-112). -/
def initialState : ChatState :=
  { chats := [], currentChatId := none, isLoading := true, isStreaming := false }

/-- JavaScript `s.split(' ')`: split on every single space character,
keeping empty pieces (so `"".split(' ')` is `[""]` and consecutive spaces
yield empty pieces), modelled on the character list. -/
def jsSplitSpace (s : String) : List (List Char) :=
  s.toList.splitOn ' '

/-- `generateChatTitle` from src/contexts/ChatContext.tsx lines 101-104:
`firstMessage.split(' ').slice(0, 6).join(' ')` plus `'...'` when the split
has more than six pieces. -/
def generateChatTitle (firstMessage : String) : String :=
  String.mk (List.intercalate [' '] ((jsSplitSpace firstMessage).take 6)) ++
    (if (jsSplitSpace firstMessage).length > 6 then "..." else "")

/-- Modelled from the spec wording of the title rule (spec sections 4.1 and
8): the first six space-separated words of the content followed by an
ellipsis when the content has more than six words, and the full content
otherwise.  It is compared with the source-derived `generateChatTitle`. -/
def specTitle (content : String) : String :=
  if (jsSplitSpace content).length > 6 then
    String.mk (List.intercalate [' '] ((jsSplitSpace content).take 6)) ++ "..."
  else content

/-- The `Chat` literal built by `createNewChat`
(src/contexts/ChatContext.tsx lines 138-144); the generated
`chat_${Date.now()}_${random}` id is the `newId` parameter. -/
def newChat (newId : String) (now : Nat) : Chat :=
  { id := newId, title := "New Chat", messages := [], createdAt := now, updatedAt := now }

/-- `createNewChat` from src/contexts/ChatContext.tsx lines 137-147: builds
a fresh chat and dispatches `CREATE_CHAT` (the function also returns the new
id, which is the `newId` parameter here). -/
def createNewChat (newId : String) (now : Nat) (state : ChatState) : ChatState :=
  chatReducer now state (.CREATE_CHAT (newChat newId now))

/-- `selectChat` from src/contexts/ChatContext.tsx lines 149-151. -/
def selectChat (now : Nat) (state : ChatState) (chatId : String) : ChatState :=
  chatReducer now state (.SELECT_CHAT chatId)

/-- `updateMessage` from src/contexts/ChatContext.tsx lines 177-179. -/
def updateMessage (now : Nat) (state : ChatState) (messageId content : String) : ChatState :=
  chatReducer now state (.UPDATE_MESSAGE messageId content)

/-- `deleteChat` from src/contexts/ChatContext.tsx lines 181-183. -/
def deleteChat (now : Nat) (state : ChatState) (chatId : String) : ChatState :=
  chatReducer now state (.DELETE_CHAT chatId)

/-- `setStreaming` from src/contexts/ChatContext.tsx lines 185-187. -/
def setStreaming (now : Nat) (state : ChatState) (b : Bool) : ChatState :=
  chatReducer now state (.SET_STREAMING b)

/-- `addMessage` from src/contexts/ChatContext.tsx lines 153-175.  It
dispatches `ADD_MESSAGE`, and then — when the message is a user message and
the chat found in the *pre-dispatch* snapshot `state.chats` has an empty
message list — dispatches `LOAD_CHATS` with `updatedChats` computed from that
same stale snapshot (the React closure captures `state` from before either
dispatch; React applies the two dispatches to the reducer state in order).
The generated `msg_${Date.now()}_${random}` id is the `newId` parameter. -/
def addMessage (newId : String) (now : Nat) (state : ChatState)
    (role : Role) (content : String) (images : Option (List String))
    (streamFlag : Option Bool) : ChatState :=
  let newMessage : Message :=
    { id := newId, content := content, role := role, timestamp := now,
      isStreaming := streamFlag, images := images }
  let state1 := chatReducer now state (.ADD_MESSAGE newMessage)
  if role = .user then
    match state.chats.find? (fun chat => some chat.id = state.currentChatId) with
    | some currentChat =>
        if currentChat.messages.length = 0 then
          let title := generateChatTitle content
          let updatedChats := state.chats.map fun chat =>
            if some chat.id = state.currentChatId then { chat with title := title } else chat
          chatReducer now state1 (.LOAD_CHATS updatedChats)
        else state1
    | none => state1
  else state1

/-- States reachable from the initial reducer state through the operations
the `ChatProvider` exposes (plus the mount-time `LOAD_CHATS` dispatch);
these are exactly the dispatch sequences the application can perform. -/
inductive Reachable : ChatState → Prop where
  | init : Reachable initialState
  | create (newId : String) (now : Nat) {s : ChatState} :
      Reachable s → Reachable (createNewChat newId now s)
  | select (now : Nat) (chatId : String) {s : ChatState} :
      Reachable s → Reachable (selectChat now s chatId)
  | add (newId : String) (now : Nat) (role : Role) (content : String)
      (images : Option (List String)) (streamFlag : Option Bool) {s : ChatState} :
      Reachable s → Reachable (addMessage newId now s role content images streamFlag)
  | update (now : Nat) (messageId content : String) {s : ChatState} :
      Reachable s → Reachable (updateMessage now s messageId content)
  | del (now : Nat) (chatId : String) {s : ChatState} :
      Reachable s → Reachable (deleteChat now s chatId)
  | setStr (now : Nat) (b : Bool) {s : ChatState} :
      Reachable s → Reachable (setStreaming now s b)
  | load (chats : List Chat) {s : ChatState} :
      Reachable s → Reachable (chatReducer 0 s (.LOAD_CHATS chats))

/-- The number of assistant messages across all conversations whose
`isStreaming` marker is set. -/
def streamingAssistantCount (st : ChatState) : Nat :=
  (st.chats.map fun chat =>
    (chat.messages.filter fun msg =>
      decide (msg.role = Role.assistant) && decide (msg.isStreaming = some true)).length).sum

/-- Iterated `createNewChat`: one `(id, Date.now())` pair per call, applied
left to right. -/
def createNewChats (ps : List (String × Nat)) (st : ChatState) : ChatState :=
  ps.foldl (fun s p => createNewChat p.1 p.2 s) st

/-- The chunk callback passed to `blink.ai.streamText` by `handleSendMessage`
(src/components/ChatInterface.tsx lines 90-96): it accumulates
`streamedContent += chunk` and dispatches `updateMessage` with the
accumulated text.  The callback never consults the `AbortController` (whose
signal is also never passed to `streamText`), so it runs for every chunk
whether or not `abort()` was called.  Returns the new accumulated content
and the new store state. -/
def onChunk (assistantMessageId : String) (streamedContent chunk : String)
    (now : Nat) (st : ChatState) : String × ChatState :=
  let newContent := streamedContent ++ chunk
  (newContent, updateMessage now st assistantMessageId newContent)

/-- `handleStopStreaming` from src/components/ChatInterface.tsx lines
122-133: when an abort controller exists it calls `abort()` (no effect on
the store), dispatches `setStreaming(false)`, clears the local streaming-id,
and patches the streaming message to the fixed stopped text. -/
def handleStopStreaming (hasController : Bool)
    (currentStreamingMessageId : Option String) (now : Nat) (st : ChatState) : ChatState :=
  if hasController then
    let st1 := setStreaming now st false
    match currentStreamingMessageId with
    | some mid => updateMessage now st1 mid "Response generation was stopped."
    | none => st1
  else st

/-- A JSON document, as produced by `JSON.stringify(state.chats)` and
consumed by `JSON.parse` (src/contexts/ChatContext.tsx lines 115-135). -/
inductive Json where
  | null
  | bool (b : Bool)
  | num (n : Nat)
  | str (s : String)
  | arr (items : List Json)
  | obj (fields : List (String × Json))

/-- Field access on a JSON object. -/
def getField (j : Json) (key : String) : Option Json :=
  match j with
  | Json.obj fields => fields.lookup key
  | _ => none

/-- Read a JSON string. -/
def asStr : Json → Option String
  | Json.str s => some s
  | _ => none

/-- Read a JSON number. -/
def asNum : Json → Option Nat
  | Json.num n => some n
  | _ => none

/-- The `role` strings appearing in the persisted document. -/
def encodeRole : Role → String
  | Role.user => "user"
  | Role.assistant => "assistant"

/-- Read a `role` string back. -/
def decodeRole (s : String) : Option Role :=
  if s = "user" then some Role.user
  else if s = "assistant" then some Role.assistant
  else none

/-- Decode every element of a JSON array, failing if any element fails. -/
def decodeList {α : Type} (f : Json → Option α) : List Json → Option (List α)
  | [] => some []
  | j :: js =>
      match f j, decodeList f js with
      | some a, some rest => some (a :: rest)
      | _, _ => none

/-- `JSON.stringify` of a `Message` object: one field per present property
(JS omits `undefined`-valued optional properties, hence `none` fields
produce no entry). -/
def encodeMessage (m : Message) : Json :=
  Json.obj
    ([("id", Json.str m.id), ("content", Json.str m.content),
      ("role", Json.str (encodeRole m.role)),
      ("timestamp", Json.num m.timestamp)] ++
     (match m.isStreaming with
      | some b => [("isStreaming", Json.bool b)]
      | none => []) ++
     (match m.images with
      | some urls => [("images", Json.arr (urls.map Json.str))]
      | none => []))

/-- Reading a `Message` back from the parsed document (a missing optional
field stays `none`; `JSON.parse` itself performs no validation, the typed
reader makes the implicit shape explicit). -/
def decodeMessage (j : Json) : Option Message :=
  match getField j "id" >>= asStr, getField j "content" >>= asStr,
        (getField j "role" >>= asStr) >>= decodeRole,
        getField j "timestamp" >>= asNum with
  | some mid, some content, some role, some ts =>
      some { id := mid, content := content, role := role, timestamp := ts,
             isStreaming :=
               match getField j "isStreaming" with
               | some (Json.bool b) => some b
               | _ => none,
             images :=
               match getField j "images" with
               | some (Json.arr xs) => decodeList asStr xs
               | _ => none }
  | _, _, _, _ => none

/-- `JSON.stringify` of a `Chat` object. -/
def encodeChat (c : Chat) : Json :=
  Json.obj [("id", Json.str c.id), ("title", Json.str c.title),
            ("messages", Json.arr (c.messages.map encodeMessage)),
            ("createdAt", Json.num c.createdAt), ("updatedAt", Json.num c.updatedAt)]

/-- Reading a `Chat` back from the parsed document. -/
def decodeChat (j : Json) : Option Chat :=
  match getField j "id" >>= asStr, getField j "title" >>= asStr,
        (match getField j "messages" with
         | some (Json.arr xs) => decodeList decodeMessage xs
         | _ => none),
        getField j "createdAt" >>= asNum, getField j "updatedAt" >>= asNum with
  | some cid, some title, some msgs, some ca, some ua =>
      some { id := cid, title := title, messages := msgs, createdAt := ca, updatedAt := ua }
  | _, _, _, _, _ => none

/-- The persisted document: `JSON.stringify(state.chats)` writes the JSON
array of chats under the key `chatgpt-clone-chats`
(src/contexts/ChatContext.tsx lines 131-135). -/
def encodeChats (cs : List Chat) : Json :=
  Json.arr (cs.map encodeChat)

/-- Reading the persisted document back as a chat list. -/
def decodeChats (j : Json) : Option (List Chat) :=
  match j with
  | Json.arr xs => decodeList decodeChat xs
  | _ => none

/-- Outcome of `localStorage.getItem` plus `JSON.parse` during the mount-time
load (src/contexts/ChatContext.tsx lines 115-128): no stored value, a stored
value on which `JSON.parse` throws, or a successfully parsed chat list (the
code uses the parsed value without validation). -/
inductive LoadResult where
  | noKey
  | parseFailure
  | parsed (chats : List Chat)

/-- The mount-time load effect (src/contexts/ChatContext.tsx lines 115-128):
`LOAD_CHATS` with the parsed list, or with `[]` when the key is absent or
parsing threw (the `catch` branch).  `LOAD_CHATS` ignores `Date.now()`, so
the time argument is irrelevant and fixed to `0`. -/
def loadChatsEffect (r : LoadResult) (st : ChatState) : ChatState :=
  match r with
  | .noKey => chatReducer 0 st (.LOAD_CHATS [])
  | .parseFailure => chatReducer 0 st (.LOAD_CHATS [])
  | .parsed chats => chatReducer 0 st (.LOAD_CHATS chats)

/-- The state `handleSendMessage` produces on a fresh chat right after the
`ADD_MESSAGE` dispatch carrying the streaming assistant placeholder and
before the `SET_STREAMING true` dispatch
(src/components/ChatInterface.tsx lines 48-55). -/
def c1State : ChatState :=
  addMessage "msg1" 7 (createNewChat "chat1" 5 initialState) .assistant "" none (some true)

/-- A conversation that already holds one completed exchange. -/
def c3PrevUser : Message :=
  { id := "m1", content := "earlier question", role := .user, timestamp := 1,
    isStreaming := none, images := none }

/-- The completed assistant answer of the earlier exchange. -/
def c3PrevAssistant : Message :=
  { id := "m2", content := "earlier answer", role := .assistant, timestamp := 2,
    isStreaming := some false, images := none }

/-- The active conversation for the cancellation scenario. -/
def c3Chat : Chat :=
  { id := "c1", title := "earlier question", messages := [c3PrevUser, c3PrevAssistant],
    createdAt := 1, updatedAt := 2 }

/-- Store state before the user sends the next prompt. -/
def c3Base : ChatState :=
  { chats := [c3Chat], currentChatId := some "c1", isLoading := false, isStreaming := false }

/-- The state after `handleSendMessage "hi"` has appended the user message,
appended the streaming assistant placeholder `m4`, and dispatched
`setStreaming(true)`, with no chunks received yet. -/
def c3Start : ChatState :=
  setStreaming 5
    (addMessage "m4" 4
      (addMessage "m3" 3 c3Base .user "hi" none none)
      .assistant "" none (some true))
    true

/-- The state right after the user presses stop (`handleStopStreaming` with
a live abort controller and `currentStreamingMessageId = m4`). -/
def c3AfterStop : ChatState :=
  handleStopStreaming true (some "m4") 6 c3Start

/-- The state after one more chunk (`"Hello"`) of the aborted request is
delivered to the unchanged chunk callback (`streamedContent` is still `""`
inside `handleSendMessage`). -/
def c3AfterLateChunk : ChatState :=
  (onChunk "m4" "" "Hello" 7 c3AfterStop).2

/-- A conversation with no messages, for exercising `updateMessage` with an
absent message id. -/
def c5Chat : Chat :=
  { id := "c1", title := "T", messages := [], createdAt := 0, updatedAt := 0 }

/-- A store whose active conversation is `c5Chat`. -/
def c5State : ChatState :=
  { chats := [c5Chat], currentChatId := some "c1", isLoading := false, isStreaming := false }

/-- A message that is currently streaming, for exercising `updateMessage`. -/
def c6Msg : Message :=
  { id := "m1", content := "old", role := .assistant, timestamp := 0,
    isStreaming := some true, images := none }

/-- The active conversation holding `c6Msg`. -/
def c6Chat : Chat :=
  { id := "c1", title := "T", messages := [c6Msg], createdAt := 0, updatedAt := 0 }

/-- A store whose active conversation is `c6Chat`. -/
def c6State : ChatState :=
  { chats := [c6Chat], currentChatId := some "c1", isLoading := false, isStreaming := true }

/-- An empty conversation used as concrete input for the title theorems. -/
def c4Chat : Chat :=
  { id := "c1", title := "New Chat", messages := [], createdAt := 0, updatedAt := 0 }

/-- A store whose active conversation is the empty `c4Chat`. -/
def c4State : ChatState :=
  { chats := [c4Chat], currentChatId := some "c1", isLoading := false, isStreaming := false }

/- ------------------------------------------------------------------ -/
/- Helper lemmas shared by the claim theorems. -/

/-- The source computes the title by `split(' ')`, `slice(0, 6)`, `join(' ')`
and a conditional ellipsis; this agrees with the spec's description (first
six space-separated words plus ellipsis, or the full content). -/
theorem generateChatTitle_eq_specTitle (content : String) :
    generateChatTitle content = specTitle content := by
  unfold generateChatTitle specTitle
  by_cases h : (jsSplitSpace content).length > 6
  · simp [h]
  · rw [if_neg h, if_neg h, List.take_of_length_le (by omega)]
    unfold jsSplitSpace
    rw [List.intercalate_splitOn]
    simp

/-- `find?` commutes with a map that does not change the tested property. -/
theorem find?_map_of_id_preserving (p : Chat → Bool) (f : Chat → Chat)
    (hf : ∀ c, p (f c) = p c) (l : List Chat) :
    (l.map f).find? p = (l.find? p).map f := by
  induction l with
  | nil => rfl
  | cons a l ih =>
      simp only [List.map_cons, List.find?_cons, hf a]
      cases h : p a <;> simp [h, ih]

/-- Characterization of `addMessage` for a user message sent to an active
conversation whose snapshot message list is empty: both dispatches are
applied, but the `LOAD_CHATS` payload was computed from the stale snapshot,
so the resulting chat list carries the derived title and *not* the appended
message, and `LOAD_CHATS` also clears `isLoading`. -/
theorem addMessage_first_user (newId : String) (now : Nat) (st : ChatState)
    (content : String) (images : Option (List String)) (streamFlag : Option Bool)
    (c : Chat)
    (hfind : st.chats.find? (fun chat => some chat.id = st.currentChatId) = some c)
    (hempty : c.messages = []) :
    addMessage newId now st .user content images streamFlag =
      { st with
        chats := st.chats.map fun chat =>
          if some chat.id = st.currentChatId then
            { chat with title := generateChatTitle content }
          else chat,
        isLoading := false } := by
  simp only [addMessage, hfind, hempty, List.length_nil, if_pos rfl, reduceIte, chatReducer]

/-- Closed form of iterated `createNewChat`: each call prepends its fresh
chat and activates it. -/
theorem createNewChats_eq (ps : List (String × Nat)) (st : ChatState) :
    createNewChats ps st =
      { st with
        chats := (ps.map fun p => newChat p.1 p.2).reverse ++ st.chats,
        currentChatId :=
          match ps.getLast? with
          | some p => some p.1
          | none => st.currentChatId } := by
  induction ps generalizing st with
  | nil => simp [createNewChats]
  | cons p ps ih =>
      rw [show createNewChats (p :: ps) st = createNewChats ps (createNewChat p.1 p.2 st) from rfl,
        ih]
      cases ps with
      | nil => simp [createNewChat, chatReducer, newChat]
      | cons q qs =>
          simp [createNewChat, chatReducer, newChat, List.getLast?_cons_cons,
            List.append_assoc]
          cases hq : (q :: qs).getLast? with
          | none => exact absurd hq (by simp)
          | some r => rfl

/-- Decoding a list encoded elementwise succeeds elementwise. -/
theorem decodeList_map {α : Type} (f : Json → Option α) (g : α → Json)
    (hfg : ∀ a, f (g a) = some a) (l : List α) :
    decodeList f (l.map g) = some l := by
  induction l with
  | nil => rfl
  | cons a l ih => simp [decodeList, hfg a, ih]

/-- Message-level round trip through the persisted document. -/
theorem decodeMessage_encodeMessage (m : Message) :
    decodeMessage (encodeMessage m) = some m := by
  obtain ⟨mid, content, role, ts, streamFlag, images⟩ := m
  cases role <;> cases streamFlag <;> cases images <;>
    simp [encodeMessage, decodeMessage, getField, asStr, asNum, encodeRole, decodeRole,
      List.lookup, decodeList_map asStr Json.str (fun a => rfl)]

/-- Chat-level round trip through the persisted document. -/
theorem decodeChat_encodeChat (c : Chat) :
    decodeChat (encodeChat c) = some c := by
  obtain ⟨cid, title, msgs, ca, ua⟩ := c
  simp [encodeChat, decodeChat, getField, asStr, asNum, List.lookup,
    decodeList_map decodeMessage encodeMessage decodeMessage_encodeMessage]

/- ------------------------------------------------------------------ -/
/- Claim theorems. -/

/-- Claim C1, counterexample: it is false that in every reachable store
state the global streaming flag is true iff exactly one assistant message
across all conversations has its streaming marker set.  The refuting state
is reachable by `createNewChat` followed by `addMessage` of a streaming
assistant placeholder — exactly the dispatch prefix of `handleSendMessage`
before its `setStreaming(true)` call — and has one streaming assistant
message while the flag is still false. -/
theorem c1_streaming_flag_iff_counterexample :
    ¬ (∀ s : ChatState, Reachable s →
        (s.isStreaming = true ↔ streamingAssistantCount s = 1)) := by
  intro h
  have hreach : Reachable c1State :=
    Reachable.add "msg1" 7 .assistant "" none (some true)
      (Reachable.create "chat1" 5 Reachable.init)
  exact absurd ((h c1State hreach).mpr (by decide)) (by decide)

/-- Claim C1, amended: the global streaming flag is not an invariant over
the per-message streaming markers; it is exactly the payload of the most
recent `SET_STREAMING` action: that action sets precisely the flag (leaving
every conversation, hence every message marker, unchanged) and every other
action leaves the flag unchanged. -/
theorem c1_streaming_flag_amended (now : Nat) (st : ChatState) (a : ChatAction) :
    ((chatReducer now st a).isStreaming =
      match a with
      | .SET_STREAMING b => b
      | _ => st.isStreaming) ∧
    ∀ b : Bool, (setStreaming now st b).chats = st.chats := by
  refine ⟨?_, fun b => rfl⟩
  cases a <;> rfl

/-- Claim C2: when `addMessage` appends a user message to an active
conversation whose message list is empty, the second dispatch (`LOAD_CHATS`
with the title update) is computed from the `state.chats` snapshot captured
before the `ADD_MESSAGE` dispatch, so the resulting state carries the
derived title but the active conversation's message list no longer contains
the just-appended user message (it equals the stale snapshot list). -/
theorem c2_stale_title_snapshot (newId : String) (now : Nat) (st : ChatState)
    (content : String) (images : Option (List String)) (streamFlag : Option Bool)
    (c : Chat)
    (hfind : st.chats.find? (fun chat => some chat.id = st.currentChatId) = some c)
    (hempty : c.messages = []) :
    addMessage newId now st .user content images streamFlag =
      { st with
        chats := st.chats.map fun chat =>
          if some chat.id = st.currentChatId then
            { chat with title := generateChatTitle content }
          else chat,
        isLoading := false } :=
  addMessage_first_user newId now st content images streamFlag c hfind hempty

/-- Witness for C2: on a concrete store with one empty active conversation,
sending a user message yields the snapshot list with the derived title —
and in particular the appended message is gone. -/
theorem c2_stale_title_snapshot_witness :
    addMessage "m1" 3 c4State .user "hello there" none none =
      { c4State with
        chats := c4State.chats.map (fun chat =>
          if some chat.id = c4State.currentChatId then
            { chat with title := generateChatTitle "hello there" }
          else chat),
        isLoading := false } :=
  c2_stale_title_snapshot "m1" 3 c4State "hello there" none none c4Chat (by decide) rfl

/-- Claim C3: after the user cancels mid-stream, the streaming assistant
message's content is exactly the stopped text and the global flag is false
(first two conjuncts — this much the code does); but a further chunk of the
cancelled request is *not* ignored: the chunk callback, which never consults
the abort signal (the `AbortController`'s signal is never passed to
`blink.ai.streamText`), dispatches `UPDATE_MESSAGE` and overwrites the
stopped text (last three conjuncts — the code contradicts the claim and the
spec's stated intent, a code bug). -/
theorem c3_cancel_then_late_chunk_mutates_store :
    ((c3AfterStop.chats.find? fun chat => some chat.id = c3AfterStop.currentChatId).map
        fun c => c.messages.map Message.content) =
      some ["earlier question", "earlier answer", "hi", "Response generation was stopped."] ∧
    c3AfterStop.isStreaming = false ∧
    c3AfterLateChunk ≠ c3AfterStop ∧
    ((c3AfterLateChunk.chats.find? fun chat => some chat.id = c3AfterLateChunk.currentChatId).map
        fun c => c.messages.map Message.content) =
      some ["earlier question", "earlier answer", "hi", "Hello"] ∧
    c3AfterLateChunk.isStreaming = false := by
  decide

/-- Claim C4: appending a user message as the first message of the active
conversation sets its title to the first six space-separated words followed
by an ellipsis when the content has more than six words, and to the full
content otherwise (`specTitle` is the spec-worded rule; the source's
`generateChatTitle` provably agrees with it). -/
theorem c4_first_user_message_title (newId : String) (now : Nat) (st : ChatState)
    (content : String) (images : Option (List String)) (streamFlag : Option Bool)
    (c : Chat)
    (hfind : st.chats.find? (fun chat => some chat.id = st.currentChatId) = some c)
    (hempty : c.messages = []) :
    (addMessage newId now st .user content images streamFlag).chats.find?
        (fun chat => some chat.id = st.currentChatId) =
      some { c with title := specTitle content } := by
  rw [addMessage_first_user newId now st content images streamFlag c hfind hempty]
  have hactive : some c.id = st.currentChatId := by
    have := List.find?_some hfind
    exact of_decide_eq_true this
  show ((st.chats.map _).find? _) = _
  rw [find?_map_of_id_preserving]
  · rw [hfind]
    simp [hactive, generateChatTitle_eq_specTitle]
  · intro chat
    by_cases hx : some chat.id = st.currentChatId <;> simp [hx]

/-- Witness for C4 at a seven-word message: the title becomes the first six
words plus an ellipsis. -/
theorem c4_first_user_message_title_witness :
    (addMessage "m1" 3 c4State .user "one two three four five six seven" none none).chats.find?
        (fun chat => some chat.id = c4State.currentChatId) =
      some { c4Chat with title := specTitle "one two three four five six seven" } :=
  c4_first_user_message_title "m1" 3 c4State "one two three four five six seven" none none
    c4Chat (by decide) rfl

/-- Claim C5, counterexample: it is false that `updateMessage` with a
message id absent from the active conversation leaves the entire store
state unchanged — on a concrete store the call still rebuilds the active
conversation with a fresh `updatedAt`, so the state differs. -/
theorem c5_missing_id_counterexample :
    ¬ (∀ (now : Nat) (st : ChatState) (messageId content : String),
        (∀ chat ∈ st.chats, some chat.id = st.currentChatId →
          ∀ msg ∈ chat.messages, msg.id ≠ messageId) →
        updateMessage now st messageId content = st) := by
  intro h
  have := h 1 c5State "missing" "x" (by decide)
  exact absurd this (by decide)

/-- Claim C5, amended: when the message id is absent from the active
conversation, `updateMessage` leaves every message list, title, id and the
global fields unchanged, but still refreshes the active conversation's
`updatedAt` timestamp to the current time (the reducer sets `Date.now()`
unconditionally on the active conversation). -/
theorem c5_missing_id_amended (now : Nat) (st : ChatState) (messageId content : String)
    (h : ∀ chat ∈ st.chats, some chat.id = st.currentChatId →
          ∀ msg ∈ chat.messages, msg.id ≠ messageId) :
    updateMessage now st messageId content =
      { st with
        chats := st.chats.map (fun chat =>
          if some chat.id = st.currentChatId then
            { chat with updatedAt := now }
          else chat) } := by
  have hchats : st.chats.map (fun chat =>
      if some chat.id = st.currentChatId then
        { chat with
          messages := chat.messages.map fun msg =>
            if msg.id = messageId then
              { msg with content := content, isStreaming := some false }
            else msg,
          updatedAt := now }
      else chat) =
      st.chats.map (fun chat =>
        if some chat.id = st.currentChatId then { chat with updatedAt := now } else chat) := by
    apply List.map_congr_left
    intro chat hc
    by_cases hactive : some chat.id = st.currentChatId
    · simp only [if_pos hactive]
      have hmsgs : (chat.messages.map fun msg =>
          if msg.id = messageId then
            { msg with content := content, isStreaming := some false }
          else msg) = chat.messages := by
        conv_rhs => rw [← List.map_id chat.messages]
        apply List.map_congr_left
        intro msg hm
        simp [h chat hc hactive msg hm]
      rw [hmsgs]
    · simp [hactive]
  simp only [updateMessage, chatReducer]
  rw [hchats]

/-- Witness for the amended C5 on a concrete store: only `updatedAt` of the
active conversation moves. -/
theorem c5_missing_id_amended_witness :
    updateMessage 2 c5State "missing" "x" =
      { c5State with
        chats := c5State.chats.map (fun chat =>
          if some chat.id = c5State.currentChatId then
            { chat with updatedAt := 2 }
          else chat) } :=
  c5_missing_id_amended 2 c5State "missing" "x" (by decide)

/-- Claim C6: `updateMessage` on the active conversation found in the store
produces, at the same position, a conversation with the same id and title in
which every message carrying the given id has its content replaced and its
streaming flag set to false (regardless of the flag's prior value), and
every other message — by index — is unchanged (the `Option.map` formulation
also forces the message count to be preserved). -/
theorem c6_update_message_patches (now : Nat) (st : ChatState)
    (messageId content : String) (c : Chat)
    (hfind : st.chats.find? (fun chat => some chat.id = st.currentChatId) = some c) :
    ∃ c', (updateMessage now st messageId content).chats.find?
            (fun chat => some chat.id = st.currentChatId) = some c' ∧
      c'.id = c.id ∧ c'.title = c.title ∧
      ∀ i : Nat, c'.messages[i]? =
        (c.messages[i]?).map fun msg =>
          if msg.id = messageId then { msg with content := content, isStreaming := some false }
          else msg := by
  have hactive : some c.id = st.currentChatId := by
    have := List.find?_some hfind
    exact of_decide_eq_true this
  refine ⟨{ c with
      messages := c.messages.map fun msg =>
        if msg.id = messageId then { msg with content := content, isStreaming := some false }
        else msg,
      updatedAt := now }, ?_, rfl, rfl, ?_⟩
  · show ((st.chats.map _).find? _) = _
    rw [find?_map_of_id_preserving]
    · rw [hfind]
      simp [hactive]
    · intro chat
      by_cases hx : some chat.id = st.currentChatId <;> simp [hx]
  · intro i
    simp [List.getElem?_map]

/-- Witness for C6 on a concrete store whose streaming message `m1` gets
patched: content replaced, streaming flag cleared. -/
theorem c6_update_message_patches_witness :
    ∃ c', (updateMessage 5 c6State "m1" "new").chats.find?
            (fun chat => some chat.id = c6State.currentChatId) = some c' ∧
      c'.id = c6Chat.id ∧ c'.title = c6Chat.title ∧
      ∀ i : Nat, c'.messages[i]? =
        (c6Chat.messages[i]?).map fun msg =>
          if msg.id = "m1" then { msg with content := "new", isStreaming := some false }
          else msg :=
  c6_update_message_patches 5 c6State "m1" "new" c6Chat (by decide)

/-- Claim C7: `deleteChat` removes exactly the conversations with the given
id (the result is the filtered list and no surviving conversation carries
the id), and the active id becomes the first remaining conversation's id —
or none when the list empties — when the deleted conversation was active,
and is unchanged otherwise. -/
theorem c7_delete_chat (now : Nat) (st : ChatState) (chatId : String) :
    (deleteChat now st chatId).chats = st.chats.filter (fun chat => chat.id ≠ chatId) ∧
    ((deleteChat now st chatId).chats.all fun chat => decide (chat.id ≠ chatId)) = true ∧
    (deleteChat now st chatId).currentChatId =
      (if st.currentChatId = some chatId then
        ((st.chats.filter fun chat => chat.id ≠ chatId).head?.map Chat.id)
      else st.currentChatId) := by
  refine ⟨rfl, ?_, rfl⟩
  simp [deleteChat, chatReducer, List.all_eq_true, List.mem_filter]

/-- Claim C8: performing `createNewChat` once per `(id, time)` pair grows
the conversation list by the number of calls, the list is the new chats in
most-recent-first order in front of the old ones, the head and the active
id are those of the last-created chat (for a nonempty run), and every newly
created chat has an empty message list. -/
theorem c8_create_conversations (ps : List (String × Nat)) (st : ChatState) :
    (createNewChats ps st).chats.length = st.chats.length + ps.length ∧
    (createNewChats ps st).chats = (ps.map fun p => newChat p.1 p.2).reverse ++ st.chats ∧
    (createNewChats ps st).chats.head? =
      (match ps.getLast? with
       | some p => some (newChat p.1 p.2)
       | none => st.chats.head?) ∧
    (createNewChats ps st).currentChatId =
      (match ps.getLast? with
       | some p => some p.1
       | none => st.currentChatId) ∧
    ((ps.map fun p => newChat p.1 p.2).all fun c => c.messages.isEmpty) = true := by
  rw [createNewChats_eq]
  refine ⟨?_, rfl, ?_, rfl, ?_⟩
  · simp only [List.length_append, List.length_reverse, List.length_map]
    omega
  · rw [List.head?_append, List.head?_reverse, List.getLast?_map]
    cases h : ps.getLast? <;> simp [h]
  · simp only [List.all_eq_true, List.mem_map]
    rintro c ⟨p, hp, hc⟩
    subst hc
    simp [newChat]

/-- Claim C9: serializing the conversation list to the persisted JSON
document and reading that document back yields the same list — same chats,
same order, same message ids and contents (the equality is on whole
records). -/
theorem c9_persistence_round_trip (chats : List Chat) :
    decodeChats (encodeChats chats) = some chats := by
  show decodeList decodeChat (chats.map encodeChat) = some chats
  exact decodeList_map decodeChat encodeChat decodeChat_encodeChat chats

/-- Claim C10: when the persisted document fails to parse, the mount-time
load (a total function — the exception is caught) dispatches `LOAD_CHATS []`,
so the state ends with an empty conversation list and the loading flag
cleared, all other fields untouched. -/
theorem c10_parse_failure_yields_empty (st : ChatState) :
    loadChatsEffect LoadResult.parseFailure st =
      { st with chats := [], isLoading := false } :=
  rfl

end ChatApp
